import Mathlib

/-
Verification of the OcleanX BLE poller core
(homeassistant/components/ocleanx/package/parser.py).

The embedding models the advertisement filter (_start_update), the poll
scheduler (poll_needed), the exchange script (_get_payload) and the
connection session (async_poll) as executable Lean functions.  Exceptions
are modelled with an explicit fault type; the transport client is a record
of oracles describing the outcome of each GATT operation; the observable
actions of a poll cycle are collected in an event trace so that properties
such as "disconnect is invoked exactly once" can be stated.
-/

namespace OcleanX

/-- Faults that can occur during a poll cycle.  `bleak` covers `BleakError`
and its subclasses (the transfer errors of the transport library),
`connection` is a failure to establish the connection, and `other` stands
for any other exception class. -/
inductive Fault where
  | bleak : String → Fault
  | connection : Fault
  | other : Nat → Fault
deriving DecidableEq, Repr

/-- Whether a fault is a `BleakError` (matched by `except BleakError`). -/
def Fault.isBleak : Fault → Bool
  | .bleak _ => true
  | _ => false

/-- Unit tags for sensor values (the source only ever uses a percentage). -/
inductive SensorUnits where
  | percentage
deriving DecidableEq, Repr

/-- Device classes for sensor values (the source only ever uses battery). -/
inductive DeviceClass where
  | battery
deriving DecidableEq, Repr

/-- One recorded sensor value: unit, value, device class and display label. -/
structure SensorEntry where
  unit : Option SensorUnits
  value : Int
  deviceClass : Option DeviceClass
  label : Option String
deriving DecidableEq, Repr

/-- Mutable state of `OcleanXBluetoothDeviceData`: the identity fields and
sensor sink maintained by the `BluetoothData` base class, plus the
`_brushing` flag and `_last_brush` timestamp set in `__init__`. -/
structure DeviceState where
  manufacturer : Option String := none
  deviceType : Option String := none
  deviceName : Option String := none
  title : Option String := none
  sensorValues : List (String × SensorEntry) := []
  brushing : Bool := false
  lastBrush : ℚ := 0
deriving DecidableEq, Repr

/-- Advertisement input: the transport address and the mapping from
manufacturer id to raw payload bytes. -/
structure BluetoothServiceInfo where
  address : String
  manufacturer_data : List (Nat × List Nat)
deriving DecidableEq, Repr

/-- Dictionary lookup on the manufacturer-data mapping. -/
def lookupKey : List (Nat × List Nat) → Nat → Option (List Nat)
  | [], _ => none
  | (k, v) :: rest, key => if k = key then some v else lookupKey rest key

/-- Manufacturer id recognised for this device family. -/
def OCLEANX_MANUFACTURER : Nat := 10147

/-- Last `n` characters of a string (the python slice `s[-n:]`). -/
def lastNChars (n : Nat) (s : String) : String :=
  String.mk (s.data.drop (s.data.length - n))

/-- Python negative indexing `l[-i]` on a list of strings. -/
def pyIdxNeg (l : List String) (i : Nat) : String :=
  l.getD (l.length - i) ""

/-- Normalise an address separator: `address.replace("-", ":")` per char. -/
def replaceDash (c : Char) : Char := if c = '-' then ':' else c

/-- Split a character list on the colon separator, as python `split(":")`:
an empty input yields one empty field. -/
def splitColon : List Char → List (List Char)
  | [] => [[]]
  | c :: cs =>
    let rest := splitColon cs
    if c = ':' then [] :: rest
    else
      match rest with
      | [] => [[c]]
      | r :: rs => (c :: r) :: rs

/-- Uppercase a string character by character. -/
def upperChars (s : String) : String := String.mk (s.data.map Char.toUpper)

/-- Modelled from the spec: the external library function
`bluetooth_data_tools.short_address`, whose source is not part of this
repository.  The spec pins its behaviour through scenario 1, where address
`"AA:BB:CC:11:22:33"` yields the short form `"2233"`: the address is split
on separators and the last two octets are uppercased and truncated to the
last four characters. -/
def short_address (address : String) : String :=
  let results := (splitColon (address.data.map replaceDash)).map String.mk
  lastNChars 4 (upperChars (pyIdxNeg results 2) ++ upperChars (pyIdxNeg results 1))

/-- The advertisement filter `_start_update`: returns the updated device
state.  Mirrors the source line by line: missing manufacturer key is a
silent no-op; the manufacturer string is set before the length check; a
payload whose length differs from 4 stops the update there; otherwise the
model label, derived display name and title are set.  All byte-level
decoding in the source is commented out, so no sensor or liveness field is
touched on any path. -/
def start_update (st : DeviceState) (info : BluetoothServiceInfo) : DeviceState :=
  match lookupKey info.manufacturer_data OCLEANX_MANUFACTURER with
  | none => st
  | some payload =>
    let st1 := { st with manufacturer := some "OcleanX" }
    if payload.length ≠ 4 then
      st1
    else
      let name := "Oclean X " ++ short_address info.address
      { st1 with deviceType := some "Oclean X",
                 deviceName := some name,
                 title := some name }

/-- The poll scheduler `poll_needed`.  The interval constants
`NOT_BRUSHING_UPDATE_INTERVAL_SECONDS`, `BRUSHING_UPDATE_INTERVAL_SECONDS`
and `TIMEOUT_RECENTLY_BRUSHING` live in `const.py`, which is not among the
source files, so they are taken as parameters (`notBrushingInterval`,
`brushingInterval`, `timeoutRecentlyBrushing`); `now` stands for the call
to `time.monotonic()`.  `service_info` is accepted and ignored exactly as
in the source. -/
def poll_needed (st : DeviceState) (service_info : BluetoothServiceInfo)
    (last_poll : Option ℚ) (now : ℚ)
    (notBrushingInterval brushingInterval timeoutRecentlyBrushing : ℚ) : Bool :=
  match last_poll with
  | none => true
  | some lp =>
    let update_interval :=
      if st.brushing || decide (now - st.lastBrush ≤ timeoutRecentlyBrushing) then
        brushingInterval
      else
        notBrushingInterval
    decide (lp > update_interval)

/-- A GATT characteristic as seen by the exchange script: the identifiers
it logs and the descriptors it enumerates. -/
structure Characteristic where
  serviceUuid : String
  uuid : String
  handle : Nat
  descriptors : List String
deriving DecidableEq, Repr

/-- A GATT service: a group of characteristics. -/
structure Service where
  characteristics : List Characteristic
deriving DecidableEq, Repr

/-- The connected transport client, as oracles giving the outcome of each
GATT operation the script can attempt.  `disconnect` is best effort and
never fails observably, so it has no oracle. -/
structure Client where
  services : List Service
  readChar : Characteristic → Except Fault (List Nat)
  startNotify : Nat → Except Fault Unit
  writeChar : Nat → List Nat → Bool → Except Fault Unit

/-- Observable actions of one poll cycle, in order of occurrence. -/
inductive Event where
  | readAttempt : Nat → Event
  | logValue : Nat → List Nat → Event
  | logDescriptor : Nat → String → Event
  | logNA : Nat → Event
  | notifyAttempt : Nat → Event
  | writeAttempt : Nat → List Nat → Event
  | sleep : Nat → Event
  | disconnect : Event
deriving DecidableEq, Repr

/-- All characteristics of all services, in enumeration order. -/
def allCharacteristics (client : Client) : List Characteristic :=
  (client.services.map Service.characteristics).flatten

/-- One iteration of the diagnostic enumeration loop in `_get_payload`: try
to read the characteristic and log its value and descriptors; the bare
`except:` clause catches any fault whatsoever and logs `NA` instead.  The
iteration always completes with a list of events and never escapes with a
fault. -/
def diagReadOne (client : Client) (ch : Characteristic) : List Event :=
  match client.readChar ch with
  | .ok v =>
    Event.readAttempt ch.handle :: Event.logValue ch.handle v ::
      ch.descriptors.map (Event.logDescriptor ch.handle)
  | .error _ => [Event.readAttempt ch.handle, Event.logNA ch.handle]

/-- The events of the whole diagnostic enumeration loop. -/
def diagEvents (client : Client) : List Event :=
  ((allCharacteristics client).map (diagReadOne client)).flatten

/-- The exchange script `_get_payload`: the diagnostic enumeration loop,
then `start_notify(23, ...)`, then `write_gatt_char(21, [3, 2, 1], False)`,
then a five second sleep.  Returns the event trace together with the fault
that escaped the script, if any.  The battery read and sensor recording
steps present in the source are commented out there, so the script never
touches the sensor sink. -/
def get_payload (client : Client) : List Event × Option Fault :=
  let diag := diagEvents client
  match client.startNotify 23 with
  | .error f => (diag ++ [Event.notifyAttempt 23], some f)
  | .ok _ =>
    match client.writeChar 21 [3, 2, 1] false with
    | .error f =>
      (diag ++ [Event.notifyAttempt 23, Event.writeAttempt 21 [3, 2, 1]], some f)
    | .ok _ =>
      (diag ++ [Event.notifyAttempt 23, Event.writeAttempt 21 [3, 2, 1],
        Event.sleep 5], none)

/-- The update record returned by a poll cycle: the identity fields and
the snapshot of the sensor sink. -/
structure SensorUpdate where
  title : Option String
  deviceName : Option String
  manufacturer : Option String
  deviceType : Option String
  sensorValues : List (String × SensorEntry)
deriving DecidableEq, Repr

/-- Modelled from the spec: `_finish_update` of the external
`bluetooth_sensor_state_data` base class, which snapshots the accumulated
state into the update record handed back to the caller. -/
def finish_update (st : DeviceState) : SensorUpdate :=
  { title := st.title, deviceName := st.deviceName,
    manufacturer := st.manufacturer, deviceType := st.deviceType,
    sensorValues := st.sensorValues }

/-- The connection session `async_poll`.  `connectResult` is the outcome of
`establish_connection` (external `bleak_retry_connector`, modelled from the
spec: on failure it raises the connection fault before the `try` block is
entered).  On a connection the script runs inside
`try ... except BleakError ... finally: disconnect`, so the trace always
ends with the disconnect event; a bleak fault is swallowed and the update
record returned, any other fault is re-raised after the disconnect. -/
def async_poll (connectResult : Except Fault Client) (st : DeviceState) :
    List Event × Except Fault SensorUpdate :=
  match connectResult with
  | .error f => ([], .error f)
  | .ok client =>
    let p := get_payload client
    match p.2 with
    | none => (p.1 ++ [Event.disconnect], .ok (finish_update st))
    | some f =>
      if f.isBleak then (p.1 ++ [Event.disconnect], .ok (finish_update st))
      else (p.1 ++ [Event.disconnect], .error f)

/-! Concrete inputs used by scenarios, counterexamples and witnesses. -/

/-- Scenario 1 advertisement: recognised manufacturer key, 4-byte payload. -/
def infoGood : BluetoothServiceInfo :=
  { address := "AA:BB:CC:11:22:33", manufacturer_data := [(10147, [0, 0, 0, 0])] }

/-- An advertisement with the recognised key but a 3-byte payload. -/
def infoBadLen : BluetoothServiceInfo :=
  { address := "AA:BB:CC:11:22:33", manufacturer_data := [(10147, [0, 0, 0])] }

/-- An advertisement without the recognised manufacturer key. -/
def infoNoKey : BluetoothServiceInfo :=
  { address := "AA:BB:CC:11:22:33", manufacturer_data := [] }

/-- The well-known battery level characteristic. -/
def batteryChar : Characteristic :=
  { serviceUuid := "0000180f-0000-1000-8000-00805f9b34fb"
    uuid := "00002a19-0000-1000-8000-00805f9b34fb"
    handle := 10
    descriptors := [] }

/-- A client whose battery attribute reads byte 77 and whose control writes
and subscriptions all succeed. -/
def batteryClient : Client :=
  { services := [{ characteristics := [batteryChar] }]
    readChar := fun ch => if ch = batteryChar then .ok [77] else .ok []
    startNotify := fun _ => .ok ()
    writeChar := fun _ _ _ => .ok () }

/-- A client whose notify subscription fails with a bleak fault. -/
def bleakFailClient : Client :=
  { services := []
    readChar := fun _ => .ok []
    startNotify := fun _ => .error (.bleak "boom")
    writeChar := fun _ _ _ => .ok () }

def charA : Characteristic :=
  { serviceUuid := "s1", uuid := "c1", handle := 1, descriptors := [] }

def charB : Characteristic :=
  { serviceUuid := "s1", uuid := "c2", handle := 2, descriptors := [] }

/-- A client with two characteristics whose first read fails. -/
def failReadClient : Client :=
  { services := [{ characteristics := [charA, charB] }]
    readChar := fun ch => if ch = charA then .error (.bleak "fail") else .ok [1]
    startNotify := fun _ => .ok ()
    writeChar := fun _ _ _ => .ok () }

/-! Helper lemmas on the exchange script trace. -/

theorem disconnect_not_mem_diagReadOne (client : Client) (ch : Characteristic) :
    Event.disconnect ∉ diagReadOne client ch := by
  unfold diagReadOne
  cases client.readChar ch with
  | ok v => simp [List.mem_map]
  | error f => simp

theorem disconnect_not_mem_diagEvents (client : Client) :
    Event.disconnect ∉ diagEvents client := by
  unfold diagEvents
  intro hmem
  rw [List.mem_flatten] at hmem
  obtain ⟨l, hl, hmeml⟩ := hmem
  rw [List.mem_map] at hl
  obtain ⟨ch, _, rfl⟩ := hl
  exact disconnect_not_mem_diagReadOne client ch hmeml

theorem get_payload_trace_shape (client : Client) :
    ∃ rest, (get_payload client).1 =
      diagEvents client ++ (Event.notifyAttempt 23 :: rest) := by
  unfold get_payload
  cases client.startNotify 23 with
  | error f => exact ⟨[], rfl⟩
  | ok u =>
    cases client.writeChar 21 [3, 2, 1] false with
    | error f => exact ⟨[Event.writeAttempt 21 [3, 2, 1]], rfl⟩
    | ok u2 => exact ⟨[Event.writeAttempt 21 [3, 2, 1], Event.sleep 5], rfl⟩

theorem logNA_mem_diagEvents (client : Client) (ch : Characteristic)
    (hmem : ch ∈ allCharacteristics client) (f : Fault)
    (hfail : client.readChar ch = .error f) :
    Event.logNA ch.handle ∈ diagEvents client := by
  unfold diagEvents
  rw [List.mem_flatten]
  refine ⟨diagReadOne client ch, List.mem_map_of_mem _ hmem, ?_⟩
  unfold diagReadOne
  rw [hfail]
  simp

theorem readAttempt_mem_diagEvents (client : Client) (c : Characteristic)
    (hmem : c ∈ allCharacteristics client) :
    Event.readAttempt c.handle ∈ diagEvents client := by
  unfold diagEvents
  rw [List.mem_flatten]
  refine ⟨diagReadOne client c, List.mem_map_of_mem _ hmem, ?_⟩
  unfold diagReadOne
  cases client.readChar c <;> simp

theorem get_payload_fault_eq (c1 c2 : Client)
    (hn : c1.startNotify = c2.startNotify) (hw : c1.writeChar = c2.writeChar) :
    (get_payload c1).2 = (get_payload c2).2 := by
  unfold get_payload
  rw [hn, hw]
  cases c2.startNotify 23 with
  | error f => rfl
  | ok u =>
    cases c2.writeChar 21 [3, 2, 1] false with
    | error f => rfl
    | ok u2 => rfl

theorem get_payload_ok_eq (client : Client)
    (hn : client.startNotify 23 = .ok ())
    (hw : client.writeChar 21 [3, 2, 1] false = .ok ()) :
    get_payload client =
      (diagEvents client ++ [Event.notifyAttempt 23, Event.writeAttempt 21 [3, 2, 1],
        Event.sleep 5], none) := by
  unfold get_payload
  rw [hn, hw]

theorem disconnect_not_mem_get_payload (client : Client) :
    Event.disconnect ∉ (get_payload client).1 := by
  unfold get_payload
  cases client.startNotify 23 with
  | error f => simp [disconnect_not_mem_diagEvents client]
  | ok u =>
    cases client.writeChar 21 [3, 2, 1] false with
    | error f => simp [disconnect_not_mem_diagEvents client]
    | ok u2 => simp [disconnect_not_mem_diagEvents client]

theorem async_poll_ok_eq (client : Client) (st : DeviceState) :
    async_poll (.ok client) st =
      match (get_payload client).2 with
      | none => ((get_payload client).1 ++ [Event.disconnect], .ok (finish_update st))
      | some f =>
        if f.isBleak then
          ((get_payload client).1 ++ [Event.disconnect], .ok (finish_update st))
        else
          ((get_payload client).1 ++ [Event.disconnect], .error f) := rfl

/-! Claim theorems. -/

/-- Claim C1: whenever connection establishment succeeds, the session
invokes disconnect exactly once on every exit path of `async_poll` (normal
completion, bleak fault, unexpected fault), and the disconnect is the last
action before the session returns or re-raises. -/
theorem async_poll_disconnect_exactly_once (client : Client) (st : DeviceState) :
    (async_poll (.ok client) st).1.count Event.disconnect = 1 ∧
    (async_poll (.ok client) st).1.getLast? = some Event.disconnect := by
  have h0 : ((get_payload client).1).count Event.disconnect = 0 :=
    List.count_eq_zero.mpr (disconnect_not_mem_get_payload client)
  rw [async_poll_ok_eq]
  cases hp : (get_payload client).2 with
  | none => simp [List.count_append, h0, List.getLast?_concat]
  | some f =>
    cases hb : f.isBleak <;>
      simp [hb, List.count_append, h0, List.getLast?_concat]

/-- Claim C2: a bleak (transport-layer) fault escaping the exchange script
after the connection was established is caught by the session, which still
returns the update record accumulated before the failure instead of
propagating the fault. -/
theorem async_poll_bleak_caught (client : Client) (st : DeviceState) (f : Fault)
    (h1 : (get_payload client).2 = some f) (h2 : f.isBleak = true) :
    (async_poll (.ok client) st).2 = .ok (finish_update st) := by
  rw [async_poll_ok_eq, h1]
  simp [h2]

/-- Witness for C2: a concrete client whose notify subscription fails with
a bleak fault still yields a normally returned update record. -/
theorem async_poll_bleak_caught_witness :
    (async_poll (.ok bleakFailClient) {}).2 = .ok (finish_update {}) :=
  async_poll_bleak_caught bleakFailClient {} (Fault.bleak "boom") rfl rfl

/-- Claim C3 counterexample: a 3-byte payload for the recognised
manufacturer key does mutate state — the manufacturer field is set before
the length check — so the rejection is not mutation free and differs from
the missing-key case in returned state, not only in log output. -/
theorem start_update_badlen_mutates :
    start_update {} infoBadLen ≠ ({} : DeviceState) ∧
    (start_update {} infoBadLen).manufacturer = some "OcleanX" ∧
    start_update {} infoBadLen ≠ start_update {} infoNoKey := by
  exact ⟨by decide, rfl, by decide⟩

/-- Claim C3 amended: a manufacturer-10147 payload whose length differs
from 4 is rejected after the manufacturer field has been set to "OcleanX";
no other field (model label, display name, title, sensor sink, liveness)
changes. -/
theorem start_update_badlen_only_manufacturer (st : DeviceState)
    (info : BluetoothServiceInfo) (payload : List Nat)
    (hk : lookupKey info.manufacturer_data OCLEANX_MANUFACTURER = some payload)
    (hl : payload.length ≠ 4) :
    start_update st info = { st with manufacturer := some "OcleanX" } := by
  unfold start_update
  rw [hk]
  simp [hl]

/-- Witness for the amended C3 at the concrete 3-byte payload. -/
theorem start_update_badlen_only_manufacturer_witness :
    start_update {} infoBadLen =
      { ({} : DeviceState) with manufacturer := some "OcleanX" } :=
  start_update_badlen_only_manufacturer {} infoBadLen [0, 0, 0] rfl (by decide)

/-- Claim C4: the scheduler returns true when no last poll is recorded;
otherwise it returns true exactly when the elapsed-time argument strictly
exceeds the threshold, which is the brushing interval when the brushing
flag is set or the last brush was within the recently-brushing grace
period, and the idle interval otherwise. -/
theorem poll_needed_spec (st : DeviceState) (info : BluetoothServiceInfo)
    (lp : Option ℚ) (now nbi bi trb : ℚ) :
    (lp = none → poll_needed st info lp now nbi bi trb = true) ∧
    ∀ t, lp = some t →
      (poll_needed st info lp now nbi bi trb = true ↔
        t > (if st.brushing = true ∨ now - st.lastBrush ≤ trb then bi else nbi)) := by
  constructor
  · rintro rfl; rfl
  · rintro t rfl
    unfold poll_needed
    by_cases hb : st.brushing <;> by_cases ht : now - st.lastBrush ≤ trb <;>
      simp [hb, ht]

/-- Witness for C4 at concrete values: not brushing, last brush outside the
grace period, elapsed time above the idle interval. -/
theorem poll_needed_spec_witness :
    poll_needed {} infoNoKey (some 700) 100 600 60 30 = true :=
  ((poll_needed_spec {} infoNoKey (some 700) 100 600 60 30).2 700 rfl).mpr
    (by norm_num)

/-- Claim C5 counterexample: with a client whose battery attribute reads
byte 77 and whose writes and subscriptions all succeed, the poll returns an
update record with no battery_percent entry at all — the battery read and
sensor recording steps are commented out in the source. -/
theorem async_poll_no_battery_sensor :
    (async_poll (.ok batteryClient) {}).2 = .ok (finish_update {}) ∧
    (finish_update ({} : DeviceState)).sensorValues.lookup "battery_percent"
      = none := by
  exact ⟨rfl, rfl⟩

/-- Claim C5 amended: when the notify subscription and the control write
succeed, the poll returns normally with an update record whose sensor
values are exactly those accumulated before the poll; the exchange script
records no battery value (that code is disabled in the source). -/
theorem async_poll_sensor_sink_unchanged (client : Client) (st : DeviceState)
    (h1 : client.startNotify 23 = .ok ())
    (h2 : client.writeChar 21 [3, 2, 1] false = .ok ()) :
    (async_poll (.ok client) st).2 = .ok (finish_update st) ∧
    (finish_update st).sensorValues = st.sensorValues := by
  refine ⟨?_, rfl⟩
  rw [async_poll_ok_eq, get_payload_ok_eq client h1 h2]

/-- Witness for the amended C5 at the concrete battery client. -/
theorem async_poll_sensor_sink_unchanged_witness :
    (async_poll (.ok batteryClient) {}).2 = .ok (finish_update {}) ∧
    (finish_update ({} : DeviceState)).sensorValues =
      ({} : DeviceState).sensorValues :=
  async_poll_sensor_sink_unchanged batteryClient {} rfl rfl

/-- Claim C6 counterexample: for the accepted scenario advertisement the
derived display name is "Oclean X 2233" — the short form keeps only the
last two bytes of the address, not the last three ("112233"). -/
theorem start_update_name_not_three_bytes :
    (start_update {} infoGood).deviceName = some "Oclean X 2233" ∧
    (start_update {} infoGood).deviceName ≠ some "Oclean X 112233" := by
  exact ⟨rfl, by decide⟩

/-- Claim C6 amended: for every accepted advertisement the derived name is
the model label, a space, and the short form of the address (its last two
octets uppercased, truncated to four characters), and this string becomes
both the display name and the title. -/
theorem start_update_name_short_address (st : DeviceState)
    (info : BluetoothServiceInfo) (payload : List Nat)
    (hk : lookupKey info.manufacturer_data OCLEANX_MANUFACTURER = some payload)
    (hl : payload.length = 4) :
    (start_update st info).deviceName =
      some ("Oclean X " ++ short_address info.address) ∧
    (start_update st info).title =
      some ("Oclean X " ++ short_address info.address) ∧
    (start_update st info).deviceType = some "Oclean X" := by
  unfold start_update
  rw [hk]
  simp [hl]

/-- Witness for the amended C6 at the scenario advertisement. -/
theorem start_update_name_short_address_witness :
    (start_update {} infoGood).deviceName =
      some ("Oclean X " ++ short_address infoGood.address) ∧
    (start_update {} infoGood).title =
      some ("Oclean X " ++ short_address infoGood.address) ∧
    (start_update {} infoGood).deviceType = some "Oclean X" :=
  start_update_name_short_address {} infoGood [0, 0, 0, 0] rfl rfl

/-- Claim C7: the scenario advertisement with address AA:BB:CC:11:22:33 and
manufacturer data 10147 mapped to four zero bytes is accepted, the display
name and title become exactly "Oclean X 2233", and no sensor values are
recorded by the observation. -/
theorem observe_scenario_one :
    (start_update {} infoGood).deviceType = some "Oclean X" ∧
    (start_update {} infoGood).deviceName = some "Oclean X 2233" ∧
    (start_update {} infoGood).title = some "Oclean X 2233" ∧
    (start_update {} infoGood).sensorValues = [] := by
  exact ⟨rfl, rfl, rfl, rfl⟩

/-- Claim C8: a diagnostic read failure on one characteristic is caught per
attribute and logged as unavailable, every characteristic is still
attempted, and the script proceeds past the loop to the notify step. -/
theorem diag_read_failure_isolated (client : Client) (ch : Characteristic)
    (hmem : ch ∈ allCharacteristics client)
    (hfail : ∃ f, client.readChar ch = .error f) :
    Event.logNA ch.handle ∈ (get_payload client).1 ∧
    (∀ c ∈ allCharacteristics client,
      Event.readAttempt c.handle ∈ (get_payload client).1) ∧
    Event.notifyAttempt 23 ∈ (get_payload client).1 := by
  obtain ⟨f, hf⟩ := hfail
  obtain ⟨rest, hshape⟩ := get_payload_trace_shape client
  rw [hshape]
  refine ⟨?_, ?_, ?_⟩
  · exact List.mem_append_left _ (logNA_mem_diagEvents client ch hmem f hf)
  · intro c hc
    exact List.mem_append_left _ (readAttempt_mem_diagEvents client c hc)
  · exact List.mem_append_right _ (List.mem_cons_self _ _)

/-- Witness for C8: the concrete two-characteristic client whose first read
fails still reads the second characteristic and reaches the notify step. -/
theorem diag_read_failure_isolated_witness :
    Event.logNA charA.handle ∈ (get_payload failReadClient).1 ∧
    Event.readAttempt charB.handle ∈ (get_payload failReadClient).1 ∧
    Event.notifyAttempt 23 ∈ (get_payload failReadClient).1 := by
  have h := diag_read_failure_isolated failReadClient charA (by decide)
    ⟨Fault.bleak "fail", rfl⟩
  exact ⟨h.1, h.2.1 charB (by decide), h.2.2⟩

/-- Claim C9: if connection establishment fails, the session propagates the
connection fault, produces no update record, and never reaches the
disconnect step. -/
theorem async_poll_connect_failure (st : DeviceState) :
    (async_poll (.error Fault.connection) st).2 = .error Fault.connection ∧
    Event.disconnect ∉ (async_poll (.error Fault.connection) st).1 := by
  exact ⟨rfl, by simp [async_poll]⟩

/-- Claim C10: the diagnostic loop catches every fault class: replacing the
read oracle by any other — failing with any fault whatsoever — changes
neither the fault escaping the script nor the fact that every
characteristic is attempted. -/
theorem diag_faults_never_escape (client : Client)
    (r : Characteristic → Except Fault (List Nat)) :
    (get_payload { client with readChar := r }).2 = (get_payload client).2 ∧
    ∀ c ∈ allCharacteristics client,
      Event.readAttempt c.handle ∈ (get_payload { client with readChar := r }).1 := by
  constructor
  · exact get_payload_fault_eq _ _ rfl rfl
  · intro c hc
    obtain ⟨rest, hshape⟩ := get_payload_trace_shape { client with readChar := r }
    rw [hshape]
    exact List.mem_append_left _ (readAttempt_mem_diagEvents _ c hc)

/-- A read oracle that fails every diagnostic read with a fault that is not
a transport fault. -/
def otherFaultRead : Characteristic → Except Fault (List Nat) :=
  fun _ => Except.error (Fault.other 3)

/-- Witness for C10: the client whose every diagnostic read raises a
non-transport fault escapes with the same (absent) fault and still attempts
the battery characteristic. -/
theorem diag_faults_never_escape_witness :
    (get_payload { batteryClient with readChar := otherFaultRead }).2 =
      (get_payload batteryClient).2 ∧
    Event.readAttempt batteryChar.handle ∈
      (get_payload { batteryClient with readChar := otherFaultRead }).1 := by
  have h := diag_faults_never_escape batteryClient otherFaultRead
  exact ⟨h.1, h.2 batteryChar (by decide)⟩

end OcleanX
